import Mathlib

/-!
Verification development for the ChaiScript bootstrap layer
(`include/chaiscript/dispatchkit/bootstrap.hpp`).

The POD compound-assignment helpers, the pointer/unknown assignment
functions and the `Bootstrap` utility callables (`bind_function`,
`call_exists`, `has_guard`, `get_guard`) are embedded directly from the
source.  Types that the bootstrap header only uses (`Boxed_Value`,
`Type_Info`, the `Proxy_Function` family, `boxed_cast`, `call_match`)
live in other headers of the repository and are modelled from the
specification; each such definition carries a doc comment saying so.

Modelling conventions:
* C++ exceptions become explicit error results.  A helper that mutates
  its first argument in place is embedded as a function returning the
  new value of that argument; when it can throw, it returns the pair of
  the (unchanged) argument and an optional error, since every `throw`
  in the source happens before any write to the target.
* The `double` field of `Boxed_Numeric` is modelled as a rational
  number; the claims settled against it only involve values and
  operations on which IEEE-754 double arithmetic is exact.
* Integer POD targets are modelled at two representative template
  instantiations: `int` as `ℤ` (exact while no signed overflow occurs,
  which is undefined behaviour in the source anyway) and `size_t` as a
  natural number reduced modulo `2 ^ 64` wherever a result could
  exceed the word size.
-/

namespace ChaiScript

/-- Errors thrown by the bootstrap layer: `exception::bad_boxed_cast`,
`exception::arity_error` (carrying the actual and expected argument
counts, both `int` in the source) and `std::runtime_error`. -/
inductive ChaiError where
  | bad_boxed_cast (msg : String)
  | arity_error (got : Int) (expected : Int)
  | runtime_error (msg : String)
  deriving DecidableEq, Repr

/-- `Boxed_Numeric` (from `boxed_numeric.hpp`, used by the bootstrap
helpers): a tagged numeric with an `isfloat` flag, a signed 64-bit
integer field `i` (modelled as `ℤ`) and a double field `d` (modelled as
`ℚ`).  Exactly one field is semantically active per `isfloat`. -/
structure BoxedNumeric where
  isfloat : Bool
  i : Int
  d : Rat
  deriving DecidableEq, Repr

/-- Truncation of a rational toward zero: the conversion a C++
floating-to-integer cast `P1(v.d)` performs.  Both branches divide a
nonnegative numerator by the positive denominator, so the value does
not depend on which integer-division convention `/` denotes. -/
def truncRat (q : Rat) : Int :=
  if q.num < 0 then -((-q.num) / (q.den : Int)) else q.num / (q.den : Int)

/-- Conversion of the `int64_t` field to a 64-bit unsigned target,
i.e. the C++ cast `P1(r.i)` at `P1 = size_t`: reduction modulo
`2 ^ 64`. -/
def int64ToUSize (i : Int) : Nat :=
  (i % ((2 : Int) ^ 64)).toNat

/-- `detail::assign_pod` at an integer instantiation (`P1 = int`,
modelled as `ℤ`): `p1 = P1(v.d)` when `v.isfloat`, else
`p1 = P1(v.i)`.  The double-to-int cast truncates toward zero.  The
result is the new value of the target `p1`. -/
def assign_pod_int (_p1 : Int) (v : BoxedNumeric) : Int :=
  if v.isfloat then truncRat v.d else v.i

/-- `detail::assign_pod` at the floating instantiation (`P1 = double`,
modelled as `ℚ`): `p1 = P1(v.d)` when `v.isfloat`, else
`p1 = P1(v.i)`. -/
def assign_pod_double (_p1 : Rat) (v : BoxedNumeric) : Rat :=
  if v.isfloat then v.d else (v.i : Rat)

/-- `detail::construct_pod` at the integer instantiation: builds
`P1(v.d)` or `P1(v.i)` per `isfloat`. -/
def construct_pod_int (v : BoxedNumeric) : Int :=
  if v.isfloat then truncRat v.d else v.i

/-- `detail::construct_pod` at the floating instantiation. -/
def construct_pod_double (v : BoxedNumeric) : Rat :=
  if v.isfloat then v.d else (v.i : Rat)

/-- `detail::assign_bitwise_and_pod` at the `size_t` instantiation:
`p1 &= P1(r.i)` when `!r.isfloat`, otherwise throws
`bad_boxed_cast("&= only valid for integer types")` before any write,
so the error case returns the target unchanged. -/
def assign_bitwise_and_pod (p1 : Nat) (r : BoxedNumeric) : Nat × Option ChaiError :=
  if !r.isfloat then (Nat.land p1 (int64ToUSize r.i), none)
  else (p1, some (.bad_boxed_cast "&= only valid for integer types"))

/-- `detail::assign_xor_pod` at the `size_t` instantiation:
`p1 ^= P1(r.i)` when `!r.isfloat`, otherwise throws
`bad_boxed_cast("^= only valid for integer types")` before any write. -/
def assign_xor_pod (p1 : Nat) (r : BoxedNumeric) : Nat × Option ChaiError :=
  if !r.isfloat then (Nat.xor p1 (int64ToUSize r.i), none)
  else (p1, some (.bad_boxed_cast "^= only valid for integer types"))

/-- `detail::assign_bitwise_or_pod` at the `size_t` instantiation:
`p1 |= P1(r.i)` when `!r.isfloat`, otherwise throws
`bad_boxed_cast("&= only valid for integer types")` before any write.
The thrown message really says `&=` in the source (line 97), not
`|=`, while the function's own doc comment says it performs `|=`. -/
def assign_bitwise_or_pod (p1 : Nat) (r : BoxedNumeric) : Nat × Option ChaiError :=
  if !r.isfloat then (Nat.lor p1 (int64ToUSize r.i), none)
  else (p1, some (.bad_boxed_cast "&= only valid for integer types"))

/-- `detail::assign_left_shift_pod` at the `size_t` instantiation:
`p1 <<= P1(r.i)` when `!r.isfloat` (the unsigned result wraps modulo
`2 ^ 64`), otherwise throws
`bad_boxed_cast("<<= only valid for integer types")` before any
write. -/
def assign_left_shift_pod (p1 : Nat) (r : BoxedNumeric) : Nat × Option ChaiError :=
  if !r.isfloat then (Nat.shiftLeft p1 (int64ToUSize r.i) % 2 ^ 64, none)
  else (p1, some (.bad_boxed_cast "<<= only valid for integer types"))

/-- `detail::assign_remainder_pod` at the `size_t` instantiation:
`p1 %= P1(r.i)` when `!r.isfloat`, otherwise throws
`bad_boxed_cast("%= only valid for integer types")` before any
write. -/
def assign_remainder_pod (p1 : Nat) (r : BoxedNumeric) : Nat × Option ChaiError :=
  if !r.isfloat then (p1 % int64ToUSize r.i, none)
  else (p1, some (.bad_boxed_cast "%= only valid for integer types"))

/-- `detail::assign_right_shift_pod` at the `size_t` instantiation:
`p1 >>= P1(r.i)` when `!r.isfloat`, otherwise throws
`bad_boxed_cast(">>= only valid for integer types")` before any
write. -/
def assign_right_shift_pod (p1 : Nat) (r : BoxedNumeric) : Nat × Option ChaiError :=
  if !r.isfloat then (Nat.shiftRight p1 (int64ToUSize r.i), none)
  else (p1, some (.bad_boxed_cast ">>= only valid for integer types"))

/-- `detail::assign_sum_pod` at the integer instantiation:
`p1 += P1(r.d)` when `r.isfloat`, else `p1 += P1(r.i)`.  The cast to
the integer target happens before the addition. -/
def assign_sum_pod_int (p1 : Int) (r : BoxedNumeric) : Int :=
  if r.isfloat then p1 + truncRat r.d else p1 + r.i

/-- `detail::assign_difference_pod` at the integer instantiation:
`p1 -= P1(r.d)` when `r.isfloat`, else `p1 -= P1(r.i)`. -/
def assign_difference_pod_int (p1 : Int) (r : BoxedNumeric) : Int :=
  if r.isfloat then p1 - truncRat r.d else p1 - r.i

/-- `detail::assign_product_pod` at the integer instantiation:
`p1 *= P1(r.d)` when `r.isfloat`, else `p1 *= P1(r.i)`. -/
def assign_product_pod_int (p1 : Int) (r : BoxedNumeric) : Int :=
  if r.isfloat then p1 * truncRat r.d else p1 * r.i

/-- C++ signed integer division truncates toward zero; as in
`truncRat`, both branches divide nonnegative operands so the value is
convention-independent.  Division by zero is undefined behaviour in the
source; the model returns 0 there. -/
def intQuot (a b : Int) : Int :=
  if (a < 0) = (b < 0) then a.natAbs / b.natAbs
  else -((a.natAbs : Int) / (b.natAbs : Int))

/-- `detail::assign_quotient_pod` at the integer instantiation:
`p1 /= P1(r.d)` when `r.isfloat`, else `p1 /= P1(r.i)`. -/
def assign_quotient_pod_int (p1 : Int) (r : BoxedNumeric) : Int :=
  if r.isfloat then intQuot p1 (truncRat r.d) else intQuot p1 r.i

/-- `detail::assign_sum_pod` at the floating instantiation
(`P1 = double`, modelled as `ℚ`). -/
def assign_sum_pod_double (p1 : Rat) (r : BoxedNumeric) : Rat :=
  if r.isfloat then p1 + r.d else p1 + (r.i : Rat)

/-- `detail::assign_difference_pod` at the floating instantiation. -/
def assign_difference_pod_double (p1 : Rat) (r : BoxedNumeric) : Rat :=
  if r.isfloat then p1 - r.d else p1 - (r.i : Rat)

/-- `detail::assign_product_pod` at the floating instantiation. -/
def assign_product_pod_double (p1 : Rat) (r : BoxedNumeric) : Rat :=
  if r.isfloat then p1 * r.d else p1 * (r.i : Rat)

/-- `detail::assign_quotient_pod` at the floating instantiation. -/
def assign_quotient_pod_double (p1 : Rat) (r : BoxedNumeric) : Rat :=
  if r.isfloat then p1 / r.d else p1 / (r.i : Rat)

/-- The promotion rule exactly as claim C3 words it, for `*=` at an
integer target: when the operand is floating, the integer target is
converted to double, the arithmetic is performed in double, and the
result lands back in the integer target (truncated).  This definition
follows the claim's words, to be compared with
`assign_product_pod_int`, which follows the source. -/
def assign_product_pod_int_floatWins (p1 : Int) (r : BoxedNumeric) : Int :=
  if r.isfloat then truncRat ((p1 : Rat) * r.d) else p1 * r.i

/-- Modelled from the spec: `Type_Info` (from `type_info.hpp`, not in
the surveyed sources) is an immutable descriptor {type identity,
is_const, is_reference, is_pointer, is_void, is_undef}.  The identity
is an abstract code; the qualified and bare name strings are omitted
(no settled claim mentions them).  `isArith` marks registered POD
numeric types, used only by the spec-modelled argument-compatibility
test of dispatch step 2. -/
structure TypeInfo where
  identity : Nat
  isConst : Bool := false
  isRef : Bool := false
  isPointer : Bool := false
  isVoid : Bool := false
  isUndef : Bool := false
  isArith : Bool := false
  deriving DecidableEq, Repr

/-- Modelled from the spec: two `Type_Info` values are bare-equal iff
identity and pointer-arity match, ignoring const/reference
qualifiers. -/
def TypeInfo.bare_equal (a b : TypeInfo) : Bool :=
  a.identity == b.identity && a.isPointer == b.isPointer

/-- The `Type_Info` of an undefined `Boxed_Value` (no type bound). -/
def undefTypeInfo : TypeInfo :=
  { identity := 0, isUndef := true }

/-- The `Type_Info` registered for `bool`. -/
def boolTypeInfo : TypeInfo :=
  { identity := 2 }

/-- The `Type_Info` of the `Proxy_Function_Base` callable type
(registered as "Function"); its identity code is abstract. -/
def functionTypeInfo : TypeInfo :=
  { identity := 100 }

mutual
/-- Modelled from the spec: the type-erased payload a `Boxed_Value`
holds — nothing (undefined), a native value, or a callable.  The
handful of native cases present suffice for the settled claims. -/
inductive Payload where
  | undefP : Payload
  | boolVal : Bool → Payload
  | intVal : Int → Payload
  | doubleVal : Rat → Payload
  | strVal : String → Payload
  | fnVal : ProxyFunction → Payload

/-- Modelled from the spec: the `Proxy_Function` family as a tagged
variant — Plain (native signature: arity, parameter `Type_Info` list,
annotation string), Constructor, Bound (underlying function plus
pre-bound arguments), Dynamic (script-defined, arity and optional
guard), and OverloadSet (ordered candidate list).  Arity −1 means
variadic. -/
inductive ProxyFunction where
  | plain : Int → List TypeInfo → String → ProxyFunction
  | constructorFn : Int → TypeInfo → ProxyFunction
  | bound : ProxyFunction → List BoxedValue → ProxyFunction
  | dynamic : Int → Option ProxyFunction → ProxyFunction
  | overloadSet : List ProxyFunction → ProxyFunction

/-- Modelled from the spec: `Boxed_Value` = payload + `Type_Info`.
The ownership mode plays no role in any settled claim and is
omitted; constness is read from the `Type_Info`, exactly as
`ptr_assign` in the source does via `get_type_info().is_const()`. -/
inductive BoxedValue where
  | mk : Payload → TypeInfo → BoxedValue
end

/-- The payload of a `Boxed_Value`. -/
def BoxedValue.payload : BoxedValue → Payload
  | .mk p _ => p

/-- The `Type_Info` of a `Boxed_Value` (`get_type_info`). -/
def BoxedValue.typeInfo : BoxedValue → TypeInfo
  | .mk _ t => t

/-- `Boxed_Value::is_undef`: no type bound yet. -/
def BoxedValue.is_undef (bv : BoxedValue) : Bool :=
  bv.typeInfo.isUndef

/-- A boxed boolean, as `Boxed_Value(bool)` builds one. -/
def boxBool (b : Bool) : BoxedValue :=
  .mk (.boolVal b) boolTypeInfo

/-- Modelled from the spec: `Boxed_Value::assign` (from
`boxed_value.hpp`, not in the surveyed sources) succeeds only when the
target is undefined or both values are bare-equal and the target is
not const, failing with a type-mismatch error otherwise.  On success
the receiver takes the source's payload; an undefined target
additionally binds the source's `Type_Info`. -/
def BoxedValue.assign (lhs rhs : BoxedValue) : Except ChaiError BoxedValue :=
  if lhs.is_undef then
    .ok (.mk rhs.payload rhs.typeInfo)
  else if lhs.typeInfo.bare_equal rhs.typeInfo && !lhs.typeInfo.isConst then
    .ok (.mk rhs.payload lhs.typeInfo)
  else
    .error (.bad_boxed_cast "type mismatch in assignment")

/-- Modelled from the spec: `boxed_cast<Const_Proxy_Function>` (from
`boxed_cast.hpp`, not in the surveyed sources) — extracts the callable
a `Boxed_Value` holds, or fails with a bad-cast error. -/
def boxed_cast_function (bv : BoxedValue) : Except ChaiError ProxyFunction :=
  match bv.payload with
  | .fnVal f => .ok f
  | _ => .error (.bad_boxed_cast "Cannot perform boxed_cast")

/-- Whether a candidate's fixed arity accepts `n` arguments
(−1 = variadic accepts any count). -/
def arityAccepts (ar : Int) (n : Nat) : Bool :=
  ar == -1 || ar == (n : Int)

/-- Modelled from the spec: the per-position argument compatibility
test of dispatch step 2 — the argument's `Type_Info` bare-equal to the
declared parameter type, or both numeric POD types (eligible for
`Boxed_Numeric` promotion).  The registry-dependent base-class clause
is outside any candidate-local check and is not modelled. -/
def typeCompatible (paramT : TypeInfo) (arg : BoxedValue) : Bool :=
  paramT.bare_equal arg.typeInfo || (paramT.isArith && arg.typeInfo.isArith)

/-- Positionwise compatibility of a declared parameter-type list with
an argument list (equal lengths required). -/
def paramListCompatible : List TypeInfo → List BoxedValue → Bool
  | [], [] => true
  | pt :: pts, a :: rest => typeCompatible pt a && paramListCompatible pts rest
  | _, _ => false

mutual
/-- Modelled from the spec: `Proxy_Function_Base::call_match` (from
`proxy_functions.hpp`, not in the surveyed sources) — the dry-run
compatibility check of dispatch step 2, without invoking: arity
variadic or equal to the argument count, and positionwise type
compatibility where a parameter-type list is declared.  A Bound
candidate defers to its underlying function with the pre-bound
arguments prepended; an OverloadSet matches when any candidate
does. -/
def call_match : ProxyFunction → List BoxedValue → Bool
  | .plain ar pts _, args => arityAccepts ar args.length && paramListCompatible pts args
  | .constructorFn ar _, args => arityAccepts ar args.length
  | .bound f pre, args => call_match f (pre ++ args)
  | .dynamic ar _, args => arityAccepts ar args.length
  | .overloadSet cs, args => call_match_any cs args

/-- `call_match` over an OverloadSet's candidate list. -/
def call_match_any : List ProxyFunction → List BoxedValue → Bool
  | [], _ => false
  | c :: cs, args => call_match c args || call_match_any cs args
end

/-- A shared handle to a callable, modelling the
`boost::shared_ptr<Type>` argument of `ptr_assign` together with the
static pointee `Type_Info` that `Get_Type_Info<Type>::get()` produces
at the instantiation. -/
structure FunctionHandle where
  pointeeType : TypeInfo
  fn : ProxyFunction

/-- `bootstrap::ptr_assign` (source lines 440–451): when the target is
undefined, or non-const and bare-equal to the handle's pointee type,
assign `Boxed_Value(rhs)` into the target and return it; otherwise
throw `bad_boxed_cast("type mismatch in pointer assignment")` without
touching the target. -/
def ptr_assign (lhs : BoxedValue) (rhs : FunctionHandle) : Except ChaiError BoxedValue :=
  if lhs.is_undef || (!lhs.typeInfo.isConst && lhs.typeInfo.bare_equal rhs.pointeeType) then
    lhs.assign (.mk (.fnVal rhs.fn) rhs.pointeeType)
  else
    .error (.bad_boxed_cast "type mismatch in pointer assignment")

/-- `Bootstrap::unknown_assign` (source lines 463–471): the generic
fallback for "=" — assign and return the result when the target is
undefined, otherwise throw
`bad_boxed_cast("boxed_value has a set type already")`. -/
def unknown_assign (lhs rhs : BoxedValue) : Except ChaiError BoxedValue :=
  if lhs.is_undef then
    lhs.assign rhs
  else
    .error (.bad_boxed_cast "boxed_value has a set type already")

/-- `Bootstrap::bind_function` (source lines 505–516): fewer than two
parameters throws `arity_error(params.size(), 2)`; otherwise
`params[0]` is cast to a callable and a new `Bound_Function` capturing
it and `params[1:]` is boxed and returned. -/
def bind_function : List BoxedValue → Except ChaiError BoxedValue
  | [] => .error (.arity_error 0 2)
  | [_] => .error (.arity_error 1 2)
  | p :: rest =>
    (boxed_cast_function p).bind fun f =>
      .ok (.mk (.fnVal (.bound f rest)) functionTypeInfo)

/-- `Bootstrap::call_exists` (source lines 522–532): an empty
parameter list throws `arity_error(0, 1)`; otherwise `params[0]` is
cast to a callable `f` and the boxed boolean
`f->call_match(params[1:])` is returned — `f` itself is never
invoked. -/
def call_exists : List BoxedValue → Except ChaiError BoxedValue
  | [] => .error (.arity_error 0 1)
  | p :: rest =>
    (boxed_cast_function p).bind fun f =>
      .ok (boxBool (call_match f rest))

/-- Whether a candidate is a Dynamic (script-defined) one — the
`dynamic_pointer_cast<const Dynamic_Proxy_Function>` test the source
performs. -/
def isDynamicCandidate : ProxyFunction → Bool
  | .dynamic _ _ => true
  | _ => false

/-- `Bootstrap::has_guard` (source lines 534–543): a Dynamic candidate
reports whether its guard pointer is non-null; every other candidate
reports false. -/
def has_guard : ProxyFunction → Bool
  | .dynamic _ g => g.isSome
  | _ => false

/-- `Bootstrap::get_guard` (source lines 545–559): returns the guard
of a Dynamic candidate that has one; a Dynamic candidate without a
guard, or any non-Dynamic candidate, throws
`runtime_error("Function does not have a guard")`. -/
def get_guard : ProxyFunction → Except ChaiError ProxyFunction
  | .dynamic _ (some g) => .ok g
  | .dynamic _ none => .error (.runtime_error "Function does not have a guard")
  | _ => .error (.runtime_error "Function does not have a guard")

/-- C1: for every target value and every `Boxed_Numeric` operand with
`isfloat = true`, each of the six integer-only compound assignment
helpers returns the integer-only-operator error ("… only valid for
integer types") together with the target unchanged — the throw happens
before any write. -/
theorem integer_only_ops_error (p1 : Nat) (r : BoxedNumeric) (hf : r.isfloat = true) :
    assign_bitwise_and_pod p1 r = (p1, some (.bad_boxed_cast "&= only valid for integer types")) ∧
    assign_xor_pod p1 r = (p1, some (.bad_boxed_cast "^= only valid for integer types")) ∧
    assign_bitwise_or_pod p1 r = (p1, some (.bad_boxed_cast "&= only valid for integer types")) ∧
    assign_left_shift_pod p1 r = (p1, some (.bad_boxed_cast "<<= only valid for integer types")) ∧
    assign_remainder_pod p1 r = (p1, some (.bad_boxed_cast "%= only valid for integer types")) ∧
    assign_right_shift_pod p1 r = (p1, some (.bad_boxed_cast ">>= only valid for integer types")) := by
  simp [assign_bitwise_and_pod, assign_xor_pod, assign_bitwise_or_pod,
        assign_left_shift_pod, assign_remainder_pod, assign_right_shift_pod, hf]

/-- Witness for C1 at the concrete floating operand {isfloat := true,
i := 3, d := 1/4} and target 7. -/
theorem integer_only_ops_error_witness :
    assign_remainder_pod 7 ⟨true, 3, (1 : Rat)/4⟩ =
      (7, some (.bad_boxed_cast "%= only valid for integer types")) :=
  (integer_only_ops_error 7 ⟨true, 3, (1 : Rat)/4⟩ rfl).2.2.2.2.1

/-- C2: evaluating all six integer-only helpers at a floating operand
shows that five name their own operator in the error message, but
`assign_bitwise_or_pod` — the `|=` helper, per its doc comment and its
registration under "|=" — raises the message naming `&=`, which
differs from the message naming `|=` that the claim requires. -/
theorem integer_only_message_bug_eval :
    (assign_bitwise_and_pod 0 ⟨true, 0, 1⟩).2 = some (.bad_boxed_cast "&= only valid for integer types") ∧
    (assign_xor_pod 0 ⟨true, 0, 1⟩).2 = some (.bad_boxed_cast "^= only valid for integer types") ∧
    (assign_left_shift_pod 0 ⟨true, 0, 1⟩).2 = some (.bad_boxed_cast "<<= only valid for integer types") ∧
    (assign_remainder_pod 0 ⟨true, 0, 1⟩).2 = some (.bad_boxed_cast "%= only valid for integer types") ∧
    (assign_right_shift_pod 0 ⟨true, 0, 1⟩).2 = some (.bad_boxed_cast ">>= only valid for integer types") ∧
    (assign_bitwise_or_pod 0 ⟨true, 0, 1⟩).2 = some (.bad_boxed_cast "&= only valid for integer types") ∧
    "&= only valid for integer types" ≠ "|= only valid for integer types" := by
  refine ⟨rfl, rfl, rfl, rfl, rfl, rfl, ?_⟩
  decide

/-- C3 counterexample: at the integer target 3 with floating operand
1/2, the source helper truncates the operand to the integer type
first (`3 * int(0.5) = 0`), while the claim's promotion rule —
arithmetic carried out in double — would give `int(3.0 * 0.5) = 1`.
The floating representation does not win in the source. -/
theorem float_wins_counterexample :
    assign_product_pod_int 3 ⟨true, 0, (1 : Rat)/2⟩ = 0 ∧
    assign_product_pod_int_floatWins 3 ⟨true, 0, (1 : Rat)/2⟩ = 1 ∧
    assign_product_pod_int 3 ⟨true, 0, (1 : Rat)/2⟩ ≠
      assign_product_pod_int_floatWins 3 ⟨true, 0, (1 : Rat)/2⟩ := by
  have h0 : assign_product_pod_int 3 ⟨true, 0, (1 : Rat)/2⟩ = 0 := by
    norm_num [assign_product_pod_int, truncRat]
  have h1 : assign_product_pod_int_floatWins 3 ⟨true, 0, (1 : Rat)/2⟩ = 1 := by
    norm_num [assign_product_pod_int_floatWins, truncRat]
  refine ⟨h0, h1, ?_⟩
  rw [h0, h1]
  decide

/-- C3 as amended: each arithmetic compound-assignment helper selects
the double field when `isfloat` and the integer field otherwise, and
converts the selected operand to the target type (exactly
`construct_pod`'s conversion) before applying the operation in the
target's type; an integer target is never promoted to double. -/
theorem assign_arith_pod_spec (p1 : Int) (q : Rat) (r : BoxedNumeric) :
    assign_sum_pod_int p1 r = p1 + construct_pod_int r ∧
    assign_difference_pod_int p1 r = p1 - construct_pod_int r ∧
    assign_product_pod_int p1 r = p1 * construct_pod_int r ∧
    assign_quotient_pod_int p1 r = intQuot p1 (construct_pod_int r) ∧
    assign_sum_pod_double q r = q + construct_pod_double r ∧
    assign_difference_pod_double q r = q - construct_pod_double r ∧
    assign_product_pod_double q r = q * construct_pod_double r ∧
    assign_quotient_pod_double q r = q / construct_pod_double r := by
  cases hf : r.isfloat <;>
    simp [assign_sum_pod_int, assign_difference_pod_int, assign_product_pod_int,
          assign_quotient_pod_int, assign_sum_pod_double, assign_difference_pod_double,
          assign_product_pod_double, assign_quotient_pod_double,
          construct_pod_int, construct_pod_double, hf]

/-- C4: `bind_function` raises `arity_error(params.size(), 2)` on
fewer than two parameters — `arity_error(0, 2)` on the empty list and
`arity_error(1, 2)` on a single parameter — and with at least two
parameters whose head boxes a callable it returns a boxed Bound
candidate capturing that callable and the remaining parameters. -/
theorem bind_function_spec (bv : BoxedValue) (f : ProxyFunction) (ti : TypeInfo)
    (rest : List BoxedValue) :
    bind_function [] = .error (.arity_error 0 2) ∧
    bind_function [bv] = .error (.arity_error 1 2) ∧
    bind_function (BoxedValue.mk (.fnVal f) ti :: bv :: rest) =
      .ok (BoxedValue.mk (.fnVal (.bound f (bv :: rest))) functionTypeInfo) :=
  ⟨rfl, rfl, rfl⟩

/-- C5: `call_exists` raises `arity_error(0, 1)` exactly on the empty
parameter list, and otherwise, when the head boxes a callable `f`,
returns the boxed boolean `call_match f` applied to the remaining
parameters — `f` is never invoked, only its dry-run `call_match`
is consulted. -/
theorem call_exists_spec (f : ProxyFunction) (ti : TypeInfo) (rest : List BoxedValue) :
    call_exists [] = .error (.arity_error 0 1) ∧
    call_exists (BoxedValue.mk (.fnVal f) ti :: rest) = .ok (boxBool (call_match f rest)) :=
  ⟨rfl, rfl⟩

/-- C6: `ptr_assign` rebinds the target to the handle exactly when the
target is undefined (binding the pointee type) or non-const and
bare-equal to the handle's pointee type (keeping its own type); in
every other case it returns the type-mismatch error and no rebinding
happens.  The inner `Boxed_Value::assign` guard is shown to pass
whenever the outer condition does. -/
theorem ptr_assign_spec (lhs : BoxedValue) (h : FunctionHandle) :
    ptr_assign lhs h =
      (if lhs.is_undef then
        Except.ok (BoxedValue.mk (.fnVal h.fn) h.pointeeType)
      else if !lhs.typeInfo.isConst && lhs.typeInfo.bare_equal h.pointeeType then
        Except.ok (BoxedValue.mk (.fnVal h.fn) lhs.typeInfo)
      else
        Except.error (.bad_boxed_cast "type mismatch in pointer assignment")) := by
  cases lhs with
  | mk p t =>
    cases hu : t.isUndef <;>
      cases hc : t.isConst <;>
      cases hb : t.bare_equal h.pointeeType <;>
      simp [ptr_assign, BoxedValue.assign, BoxedValue.is_undef,
            BoxedValue.payload, BoxedValue.typeInfo, hu, hc, hb]

/-- C7: `has_guard` is false and `get_guard` raises the guard-absent
error on every non-Dynamic candidate; on a Dynamic candidate
`get_guard` raises the same error when no guard is present and returns
the guard when one is. -/
theorem guard_ops_spec (pf g : ProxyFunction) (ar : Int) :
    (isDynamicCandidate pf = false →
      has_guard pf = false ∧
      get_guard pf = .error (.runtime_error "Function does not have a guard")) ∧
    has_guard (.dynamic ar none) = false ∧
    get_guard (.dynamic ar none) = .error (.runtime_error "Function does not have a guard") ∧
    has_guard (.dynamic ar (some g)) = true ∧
    get_guard (.dynamic ar (some g)) = .ok g := by
  refine ⟨?_, rfl, rfl, rfl, rfl⟩
  intro hnd
  cases pf <;> simp_all [isDynamicCandidate, has_guard, get_guard]

/-- Witness for C7 at a concrete Plain native candidate of arity 1. -/
theorem guard_ops_spec_witness :
    has_guard (.plain 1 [] "") = false ∧
    get_guard (.plain 1 [] "") = .error (.runtime_error "Function does not have a guard") :=
  (guard_ops_spec (.plain 1 [] "") (.plain 1 [] "") 0).1 rfl

/-- C9 counterexample: with an integer target and the floating
operand 5/2, `assign_pod` stores `int(2.5) = 2`, which is not
numerically equal to the operand's active representation 5/2. -/
theorem assign_pod_counterexample :
    assign_pod_int 0 ⟨true, 0, (5 : Rat)/2⟩ = 2 ∧
    ((assign_pod_int 0 ⟨true, 0, (5 : Rat)/2⟩ : Int) : Rat) ≠ (5 : Rat)/2 := by
  have h2 : assign_pod_int 0 ⟨true, 0, (5 : Rat)/2⟩ = 2 := by
    norm_num [assign_pod_int, truncRat]
  refine ⟨h2, ?_⟩
  rw [h2]
  norm_num

/-- C9 as amended: after `assign_pod(p1, v)` the target holds the
active representation of `v` converted to the target type (exactly
`construct_pod`'s conversion): the integer field exactly for an
integer target and an integer operand, the double field exactly for a
floating target, and the truncation of the double field for an integer
target — numerically equal to the active representation whenever that
value is exactly representable in the target (in particular whenever
the double is integral). -/
theorem assign_pod_spec (p1 : Int) (q : Rat) (v : BoxedNumeric) :
    assign_pod_int p1 v = construct_pod_int v ∧
    assign_pod_double q v = construct_pod_double v ∧
    (v.isfloat = false → assign_pod_int p1 v = v.i) ∧
    (v.isfloat = true → assign_pod_double q v = v.d) ∧
    (v.isfloat = true → v.d.den = 1 → ((assign_pod_int p1 v : Int) : Rat) = v.d) := by
  refine ⟨rfl, rfl, ?_, ?_, ?_⟩
  · intro hf; simp [assign_pod_int, hf]
  · intro hf; simp [assign_pod_double, hf]
  · intro hf hden
    have hnum : ((v.d.num : Rat)) = v.d := by
      have hd := Rat.num_div_den v.d
      rw [hden] at hd
      simpa using hd
    have htr : truncRat v.d = v.d.num := by
      unfold truncRat
      rw [hden]
      rcases lt_or_ge v.d.num 0 with hlt | hge
      · simp [hlt]
      · simp [not_lt.mpr hge]
    simp [assign_pod_int, hf, htr, hnum]

/-- Witness for C9 at the integral floating operand {isfloat := true,
i := 0, d := 3} and at the integer operand {isfloat := false, i := 4,
d := 0}. -/
theorem assign_pod_spec_witness :
    ((assign_pod_int 0 ⟨true, 0, (3 : Rat)⟩ : Int) : Rat) = (3 : Rat) ∧
    assign_pod_int 0 ⟨false, 4, 0⟩ = 4 :=
  ⟨(assign_pod_spec 0 0 ⟨true, 0, (3 : Rat)⟩).2.2.2.2 rfl rfl,
   (assign_pod_spec 0 0 ⟨false, 4, 0⟩).2.2.1 rfl⟩

/-- C10: the generic fallback "=" (`unknown_assign`) performs the
assignment and returns the result only when the target is undefined;
whenever the target already has a set type — bare-equal to the source
or not — it raises the type-mismatch error and never rebinds. -/
theorem unknown_assign_spec (lhs rhs : BoxedValue) :
    unknown_assign lhs rhs =
      (if lhs.is_undef then Except.ok (BoxedValue.mk rhs.payload rhs.typeInfo)
      else Except.error (.bad_boxed_cast "boxed_value has a set type already")) := by
  unfold unknown_assign BoxedValue.assign
  cases hu : lhs.is_undef <;> simp [hu]

end ChaiScript
